import Mathlib

/-!
Formal model of `torchtnt/runner/auto_unit.py`.

A shallow embedding of the `AutoTrainUnit` training-step orchestrator.

The Python module coordinates external collaborators (model, optimizer,
lr scheduler, grad scaler and user hooks).  We model each call to
`train_step` / `on_train_epoch_end` as a pure function that returns the
ordered list of observable side effects (an `Event` trace) together with the
returned value, mirroring the Python control flow line by line.

The user hook `compute_loss` is modelled as a function from the call index
within one `train_step` invocation (0 = first call, 1 = second call) to the
pair `(loss payload, model output)`; both Python calls receive the exact same
`(state, data)` arguments, so the call index is the only thing that can
distinguish them.  Loss values are kept symbolic (`Loss`): the raw payload
produced by `compute_loss`, optionally wrapped by `GradScaler.scale`.

Python integer semantics: `a % n` (used by the logging cadence check) follows
the sign of the divisor, which is `Int.fmod`; `% 0` raises
`ZeroDivisionError`, and a failed `assert` raises `AssertionError` — both are
modelled with `Except.error`.
-/

namespace AutoUnit

/-- The `torch.dtype` values relevant to the precision logic. -/
inductive Dtype
  | float16
  | bfloat16
  | float32
  | float64
deriving DecidableEq, Repr

/-- The `step_lr_interval` literal type: `"step"` or `"epoch"`. -/
inductive Interval
  | step
  | epoch
deriving DecidableEq, Repr

/-- Which scaler `_get_grad_scaler_from_precision` builds: a plain
`torch.cuda.amp.GradScaler` or a `ShardedGradScaler`. -/
inductive GradScalerKind
  | plain
  | sharded
deriving DecidableEq, Repr

/-- The `precision` constructor argument: `None`, a string, or a
`torch.dtype`. -/
inductive PrecisionArg
  | nonePrec
  | str (s : String)
  | dtype (d : Dtype)
deriving DecidableEq, Repr

/-- Python truthiness of the `precision` argument, as tested by
`if not precision:` — `None` and the empty string are falsy, every
`torch.dtype` object is truthy. -/
def PrecisionArg.truthy : PrecisionArg → Bool
  | .nonePrec => false
  | .str s => if s = "" then false else true
  | .dtype _ => true

/-- The dictionary `string_to_dtype_mapping = {"fp16": torch.float16,
"bf16": torch.bfloat16}` in `_convert_precision_str_to_dtype`. -/
def string_to_dtype_mapping : List (String × Dtype) :=
  [("fp16", Dtype.float16), ("bf16", Dtype.bfloat16)]

/-- Function `_convert_precision_str_to_dtype`: converts precision as a string to a
torch.dtype, raising `ValueError` (modelled as `Except.error` carrying the
message) on any string outside the mapping. -/
def convert_precision_str_to_dtype (precision : String) : Except String Dtype :=
  match string_to_dtype_mapping.lookup precision with
  | none =>
      Except.error
        ("Precision " ++ precision ++ " not supported. Please use one of `fp16` or `bf16`")
  | some d => Except.ok d

/-- Function `_get_grad_scaler_from_precision`: a scaler is produced only for
`torch.float16`; the sharded variant when the module is an FSDP instance. -/
def get_grad_scaler_from_precision (precision : Dtype) (module_is_fsdp : Bool) :
    Option GradScalerKind :=
  if precision = Dtype.float16 then
    if module_is_fsdp then some GradScalerKind.sharded else some GradScalerKind.plain
  else none

/-- The state of an `AutoTrainUnit` after `__init__`.  The module is modelled
by the only property the unit consults (whether it is FSDP-sharded), the
optimizer and scheduler by their presence. -/
structure AutoTrainUnit where
  module_is_fsdp : Bool
  has_lr_scheduler : Bool
  step_lr_interval : Interval
  log_frequency_steps : Int
  precision : Option Dtype
  grad_scaler : Option GradScalerKind
deriving DecidableEq, Repr

/-- Constructor `AutoTrainUnit.__init__`.  Mirrors the Python constructor: the
`log_frequency_steps` argument is stored unchanged (no validation); the
precision argument is resolved through `if not precision`, string conversion,
and scaler creation. -/
def AutoTrainUnit.init (module_is_fsdp has_lr_scheduler : Bool)
    (step_lr_interval : Interval) (log_frequency_steps : Int)
    (precision : PrecisionArg) : Except String AutoTrainUnit :=
  let base : AutoTrainUnit :=
    { module_is_fsdp := module_is_fsdp
      has_lr_scheduler := has_lr_scheduler
      step_lr_interval := step_lr_interval
      log_frequency_steps := log_frequency_steps
      precision := none
      grad_scaler := none }
  if precision.truthy then
    match precision with
    | .nonePrec => Except.ok base
    | .str s =>
        match convert_precision_str_to_dtype s with
        | .error e => Except.error e
        | .ok d =>
            Except.ok { base with
              precision := some d
              grad_scaler := get_grad_scaler_from_precision d module_is_fsdp }
    | .dtype d =>
        Except.ok { base with
          precision := some d
          grad_scaler := get_grad_scaler_from_precision d module_is_fsdp }
  else
    Except.ok base

/-- A symbolic loss value: the raw payload produced by `compute_loss`, or the
result of `grad_scaler.scale` applied to a loss. -/
inductive Loss (α : Type)
  | raw (a : α)
  | scaled (l : Loss α)
deriving DecidableEq, Repr

/-- One observable side effect of `train_step` / `on_train_epoch_end`, in
program order.  `compute_loss` records whether the call sits inside the
`with maybe_autocast_precision:` block and whether autocast is enabled there;
`backward` and `update_metrics` record which loss value they receive;
`zero_grad` records the `set_to_none` flag; `log_metrics` records the step
count and interval passed to the hook. -/
inductive Event (α : Type)
  | copy_data_to_device
  | compute_loss (in_autocast_scope : Bool) (autocast_enabled : Bool)
  | scaler_scale
  | backward (loss : Loss α)
  | scaler_step
  | scaler_update
  | optimizer_step
  | zero_grad (set_to_none : Bool)
  | lr_scheduler_step
  | update_metrics (loss : Loss α)
  | log_metrics (step : Nat) (interval : Interval)
deriving DecidableEq, Repr

/-- The `State` object as far as this unit reads it: `state.train_state` is
either absent (`None`, making the `assert` fail) or carries
`progress.num_steps_completed`. -/
structure State where
  train_state : Option Nat
deriving DecidableEq, Repr

/-- Python `%` on integers: result has the sign of the divisor
(floor-division remainder). -/
def pymod (a n : Int) : Int := Int.fmod a n

/-- What a successful `train_step` call produces: the event trace and the
returned `(loss, outputs)` pair. -/
structure TrainStepOut (α β : Type) where
  events : List (Event α)
  loss : Loss α
  outputs : β
deriving DecidableEq, Repr

/-- Method `AutoTrainUnit.train_step`, line by line.  `hook n` is the result of the
`(n+1)`-st call to the user-supplied `compute_loss` within this step. -/
def train_step {α β : Type} (u : AutoTrainUnit) (state : State)
    (hook : Nat → α × β) : Except String (TrainStepOut α β) :=
  -- data = copy_data_to_device(data, self.device)
  let ev : List (Event α) := [Event.copy_data_to_device]
  -- loss, outputs = self.compute_loss(state, data)        (outside any scope)
  let first := hook 0
  let loss : Loss α := Loss.raw first.1
  let outputs := first.2
  let ev := ev ++ [Event.compute_loss false false]
  -- maybe_autocast_precision = torch.autocast(..., enabled=self.precision is not None)
  let autocast_enabled := u.precision.isSome
  -- with maybe_autocast_precision: loss, outputs = self.compute_loss(state, data)
  let second := hook 1
  let loss := Loss.raw second.1
  let outputs := second.2
  let ev := ev ++ [Event.compute_loss true autocast_enabled]
  -- grad_scaler = self.grad_scaler; if grad_scaler: loss = grad_scaler.scale(loss)
  let loss := if u.grad_scaler.isSome then Loss.scaled loss else loss
  let ev := if u.grad_scaler.isSome then ev ++ [Event.scaler_scale] else ev
  -- loss.backward()
  let ev := ev ++ [Event.backward loss]
  -- if grad_scaler: grad_scaler.step(optimizer); grad_scaler.update()
  -- else: optimizer.step()
  let ev :=
    if u.grad_scaler.isSome then ev ++ [Event.scaler_step, Event.scaler_update]
    else ev ++ [Event.optimizer_step]
  -- self.optimizer.zero_grad(set_to_none=True)
  let ev := ev ++ [Event.zero_grad true]
  -- if self.lr_scheduler and self.step_lr_interval == "step": self.lr_scheduler.step()
  let ev :=
    if u.has_lr_scheduler ∧ u.step_lr_interval = Interval.step then
      ev ++ [Event.lr_scheduler_step]
    else ev
  -- self.update_metrics(state, data, loss, outputs)
  let ev := ev ++ [Event.update_metrics loss]
  -- assert state.train_state
  match state.train_state with
  | none => Except.error "AssertionError"
  | some step_count =>
      -- if (step_count + 1) % self.log_frequency_steps == 0:
      if u.log_frequency_steps = 0 then Except.error "ZeroDivisionError"
      else
        let ev :=
          if pymod ((step_count : Int) + 1) u.log_frequency_steps = 0 then
            ev ++ [Event.log_metrics step_count Interval.step]
          else ev
        -- return loss, outputs
        Except.ok ⟨ev, loss, outputs⟩

/-- Method `AutoTrainUnit.on_train_epoch_end`, line by line. -/
def on_train_epoch_end {α : Type} (u : AutoTrainUnit) (state : State) :
    Except String (List (Event α)) :=
  -- if self.lr_scheduler and self.step_lr_interval == "epoch": self.lr_scheduler.step()
  let ev : List (Event α) :=
    if u.has_lr_scheduler ∧ u.step_lr_interval = Interval.epoch then
      [Event.lr_scheduler_step]
    else []
  -- assert state.train_state
  match state.train_state with
  | none => Except.error "AssertionError"
  | some step_count =>
      -- self.log_metrics(state, step_count, "epoch")
      Except.ok (ev ++ [Event.log_metrics step_count Interval.epoch])

/-! ## Event classifiers -/

/-- Is this event a call to the `compute_loss` hook? -/
def Event.is_compute_loss {α : Type} : Event α → Bool
  | .compute_loss _ _ => true
  | _ => false

/-- Is this event the `log_metrics` hook with interval `"step"`? -/
def Event.is_log_step {α : Type} : Event α → Bool
  | .log_metrics _ .step => true
  | _ => false

/-- Is this event a call to the `log_metrics` hook (either interval)? -/
def Event.is_log {α : Type} : Event α → Bool
  | .log_metrics _ _ => true
  | _ => false

/-- Is this event an advance of the lr scheduler? -/
def Event.is_sched {α : Type} : Event α → Bool
  | .lr_scheduler_step => true
  | _ => false

/-- Is this event the `optimizer.zero_grad` call? -/
def Event.is_zero_grad {α : Type} : Event α → Bool
  | .zero_grad _ => true
  | _ => false

/-- Is this event the parameter update of this step — `optimizer.step()` on
the plain path or `grad_scaler.step(optimizer)` on the scaler path? -/
def Event.is_opt_update {α : Type} : Event α → Bool
  | .optimizer_step => true
  | .scaler_step => true
  | _ => false

/-- Is this event a call to the `update_metrics` hook? -/
def Event.is_update_metrics {α : Type} : Event α → Bool
  | .update_metrics _ => true
  | _ => false

/-! ## Closed form of a successful `train_step` -/

/-- The loss value a successful `train_step` returns (and feeds to
`backward` and `update_metrics`): the second `compute_loss` result, wrapped
by `scale` exactly when a grad scaler is present. -/
def stepLoss {α β : Type} (u : AutoTrainUnit) (hook : Nat → α × β) : Loss α :=
  if u.grad_scaler.isSome then Loss.scaled (Loss.raw (hook 1).1)
  else Loss.raw (hook 1).1

/-- The event trace of a successful `train_step` on a unit `u` with
completed-step count `c`. -/
def stepEvents {α β : Type} (u : AutoTrainUnit) (c : Nat) (hook : Nat → α × β) :
    List (Event α) :=
  [Event.copy_data_to_device,
   Event.compute_loss false false,
   Event.compute_loss true u.precision.isSome]
  ++ (if u.grad_scaler.isSome then [Event.scaler_scale] else [])
  ++ [Event.backward (stepLoss u hook)]
  ++ (if u.grad_scaler.isSome then [Event.scaler_step, Event.scaler_update]
      else [Event.optimizer_step])
  ++ [Event.zero_grad true]
  ++ (if u.has_lr_scheduler ∧ u.step_lr_interval = Interval.step then
        [Event.lr_scheduler_step]
      else [])
  ++ [Event.update_metrics (stepLoss u hook)]
  ++ (if pymod ((c : Int) + 1) u.log_frequency_steps = 0 then
        [Event.log_metrics c Interval.step]
      else [])

/-- On a state whose `train_state` is present and a unit whose logging
frequency is nonzero, `train_step` succeeds and produces exactly the
closed-form trace, loss and outputs. -/
theorem train_step_eq {α β : Type} (u : AutoTrainUnit) (c : Nat)
    (hook : Nat → α × β) (hN : u.log_frequency_steps ≠ 0) :
    train_step u ⟨some c⟩ hook =
      Except.ok ⟨stepEvents u c hook, stepLoss u hook, (hook 1).2⟩ := by
  simp only [train_step, stepEvents, stepLoss, hN, if_false, ite_false]
  by_cases hg : u.grad_scaler.isSome <;>
    by_cases hs : u.has_lr_scheduler ∧ u.step_lr_interval = Interval.step <;>
      by_cases hl : pymod ((c : Int) + 1) u.log_frequency_steps = 0 <;>
        simp [hg, hs, hl]

/-! ## Arithmetic of the logging cadence -/

/-- For a positive modulus, `(c + 1) % n = 0` exactly when the pre-increment
count `c` is congruent to `n - 1`. -/
theorem succ_mod_eq_zero_iff (c n : Nat) (hn : 0 < n) :
    (c + 1) % n = 0 ↔ c % n = n - 1 := by
  constructor
  · intro h
    obtain ⟨k, hk⟩ := Nat.dvd_of_mod_eq_zero h
    rcases k with _ | k
    · omega
    · rw [Nat.mul_succ] at hk
      have hc : c = n * k + (n - 1) := by omega
      rw [hc, Nat.mul_add_mod]
      exact Nat.mod_eq_of_lt (by omega)
  · intro h
    have h2 := Nat.div_add_mod c n
    have h3 : c + 1 = n * (c / n + 1) := by rw [Nat.mul_succ]; omega
    rw [h3, Nat.mul_mod_right]

/-- Python `%` agrees with the natural-number remainder on the arguments the
logging cadence check uses, once the frequency is positive. -/
theorem pymod_succ_eq_zero_iff (c : Nat) (N : Int) (hN : 0 < N) :
    pymod ((c : Int) + 1) N = 0 ↔ (c + 1) % N.toNat = 0 := by
  rw [pymod, Int.fmod_eq_emod _ (le_of_lt hN)]
  obtain ⟨n, rfl⟩ : ∃ n : Nat, N = (n : Int) :=
    ⟨N.toNat, (Int.toNat_of_nonneg (le_of_lt hN)).symm⟩
  rw [Int.toNat_natCast]
  norm_cast

/-! ## The claims -/

/-- The unit that `AutoTrainUnit.__init__` builds from `precision="fp16"` on
a non-sharded module, with `log_frequency_steps=10` and no scheduler. -/
def c1_unit : AutoTrainUnit :=
  { module_is_fsdp := false
    has_lr_scheduler := false
    step_lr_interval := Interval.epoch
    log_frequency_steps := 10
    precision := some Dtype.float16
    grad_scaler := some GradScalerKind.plain }

/-- Claim C1 is false on the code: with a grad scaler active, `train_step`
returns the post-scaling loss, not the unscaled `compute_loss` value — the
Python code reassigns `loss = grad_scaler.scale(loss)` and returns that same
variable.  Concretely, with `precision="fp16"` and a `compute_loss` hook
producing the raw payload `7`, the returned loss is `scale` applied to the
raw value, which differs from the raw value. -/
theorem C1_counterexample :
    AutoTrainUnit.init false false Interval.epoch 10 (PrecisionArg.str "fp16") =
      Except.ok c1_unit ∧
    (train_step c1_unit ⟨some 0⟩ fun _ => ((7 : Nat), (0 : Nat))).map
        TrainStepOut.loss = Except.ok (Loss.scaled (Loss.raw 7)) ∧
    Loss.scaled (Loss.raw 7) ≠ Loss.raw (7 : Nat) := by
  refine ⟨rfl, rfl, by decide⟩

/-- Claim C1 (amended): the loss `train_step` returns is the post-scaling
value — the second `compute_loss` result wrapped by `grad_scaler.scale`
exactly when a grad scaler is active, and the bare result otherwise. -/
theorem C1_amended_returns_post_scaling_loss {α β : Type} (u : AutoTrainUnit)
    (c : Nat) (hook : Nat → α × β) (hN : u.log_frequency_steps ≠ 0) :
    ∃ out : TrainStepOut α β, train_step u ⟨some c⟩ hook = Except.ok out ∧
      out.loss =
        if u.grad_scaler.isSome then Loss.scaled (Loss.raw (hook 1).1)
        else Loss.raw (hook 1).1 :=
  ⟨_, train_step_eq u c hook hN, rfl⟩

/-- Witness for C1 (amended) at the concrete fp16 unit. -/
theorem C1_amended_witness :
    ∃ out : TrainStepOut Nat Nat,
      train_step c1_unit ⟨some 0⟩ (fun _ => (7, 0)) = Except.ok out ∧
      out.loss =
        if c1_unit.grad_scaler.isSome then Loss.scaled (Loss.raw 7)
        else Loss.raw 7 :=
  C1_amended_returns_post_scaling_loss c1_unit 0 (fun _ => (7, 0)) (by decide)

/-- Claim C2: in every successful `train_step` call the `compute_loss` hook
runs exactly twice — first outside any autocast scope, then inside the
scoped region (autocast enabled exactly when a precision is resolved) — and
only the second result flows into the rest of the step and the return
value: two hooks agreeing on the second call give identical outcomes. -/
theorem C2_compute_loss_twice_second_used {α β : Type} (u : AutoTrainUnit)
    (c : Nat) (hook hookB : Nat → α × β) (hN : u.log_frequency_steps ≠ 0)
    (hsecond : hook 1 = hookB 1) :
    (∃ out : TrainStepOut α β, train_step u ⟨some c⟩ hook = Except.ok out ∧
      out.events.filter Event.is_compute_loss =
        [Event.compute_loss false false,
         Event.compute_loss true u.precision.isSome]) ∧
    train_step u ⟨some c⟩ hook = train_step u ⟨some c⟩ hookB := by
  refine ⟨⟨_, train_step_eq u c hook hN, ?_⟩, ?_⟩
  · by_cases hg : u.grad_scaler.isSome <;>
      by_cases hs : u.has_lr_scheduler ∧ u.step_lr_interval = Interval.step <;>
        by_cases hl : pymod ((c : Int) + 1) u.log_frequency_steps = 0 <;>
          simp [stepEvents, hg, hs, hl, Event.is_compute_loss]
  · rw [train_step_eq u c hook hN, train_step_eq u c hookB hN]
    simp [stepEvents, stepLoss, hsecond]

/-- Witness for C2 at the concrete fp16 unit, with two hooks that differ on
the first call but agree on the second. -/
theorem C2_witness :
    (∃ out : TrainStepOut Nat Nat,
      train_step c1_unit ⟨some 0⟩ (fun n => (n, n)) = Except.ok out ∧
      out.events.filter Event.is_compute_loss =
        [Event.compute_loss false false,
         Event.compute_loss true c1_unit.precision.isSome]) ∧
    train_step c1_unit ⟨some 0⟩ (fun n => (n, n)) =
      train_step c1_unit ⟨some 0⟩ (fun _ => (1, 1)) :=
  C2_compute_loss_twice_second_used c1_unit 0 (fun n => (n, n)) (fun _ => (1, 1))
    (by decide) (by decide)

/-- Claim C10: with a grad scaler active, the loss handed to the
`update_metrics` hook is the scaled loss — `scale` applied to the computed
loss — identical to the loss `train_step` returns, not the raw
`compute_loss` value. -/
theorem C10_update_metrics_gets_scaled_loss {α β : Type} (u : AutoTrainUnit)
    (c : Nat) (hook : Nat → α × β) (k : GradScalerKind)
    (hN : u.log_frequency_steps ≠ 0) (hg : u.grad_scaler = some k) :
    ∃ out : TrainStepOut α β, train_step u ⟨some c⟩ hook = Except.ok out ∧
      out.events.filter Event.is_update_metrics =
        [Event.update_metrics (Loss.scaled (Loss.raw (hook 1).1))] ∧
      out.loss = Loss.scaled (Loss.raw (hook 1).1) := by
  refine ⟨_, train_step_eq u c hook hN, ?_, ?_⟩
  · by_cases hs : u.has_lr_scheduler ∧ u.step_lr_interval = Interval.step <;>
      by_cases hl : pymod ((c : Int) + 1) u.log_frequency_steps = 0 <;>
        simp [stepEvents, stepLoss, hg, hs, hl, Event.is_update_metrics]
  · simp [stepLoss, hg]

/-- Witness for C10 at the concrete fp16 unit. -/
theorem C10_witness :
    ∃ out : TrainStepOut Nat Nat,
      train_step c1_unit ⟨some 0⟩ (fun _ => (7, 0)) = Except.ok out ∧
      out.events.filter Event.is_update_metrics =
        [Event.update_metrics (Loss.scaled (Loss.raw 7))] ∧
      out.loss = Loss.scaled (Loss.raw 7) :=
  C10_update_metrics_gets_scaled_loss c1_unit 0 (fun _ => (7, 0))
    GradScalerKind.plain (by decide) (by decide)

/-- The record the constructor builds before precision resolution. -/
def baseUnit (fsdp sched : Bool) (itv : Interval) (freq : Int) :
    AutoTrainUnit :=
  { module_is_fsdp := fsdp
    has_lr_scheduler := sched
    step_lr_interval := itv
    log_frequency_steps := freq
    precision := none
    grad_scaler := none }

theorem init_nonePrec_eq (fsdp sched : Bool) (itv : Interval) (freq : Int) :
    AutoTrainUnit.init fsdp sched itv freq PrecisionArg.nonePrec =
      Except.ok (baseUnit fsdp sched itv freq) := rfl

theorem init_str_eq (fsdp sched : Bool) (itv : Interval) (freq : Int)
    (s : String) (hs : s ≠ "") :
    AutoTrainUnit.init fsdp sched itv freq (PrecisionArg.str s) =
      match convert_precision_str_to_dtype s with
      | .error e => Except.error e
      | .ok d =>
          Except.ok { baseUnit fsdp sched itv freq with
            precision := some d
            grad_scaler := get_grad_scaler_from_precision d fsdp } := by
  simp only [AutoTrainUnit.init, PrecisionArg.truthy, if_neg hs, if_true]
  rfl

theorem init_dtype_eq (fsdp sched : Bool) (itv : Interval) (freq : Int)
    (d : Dtype) :
    AutoTrainUnit.init fsdp sched itv freq (PrecisionArg.dtype d) =
      Except.ok { baseUnit fsdp sched itv freq with
        precision := some d
        grad_scaler := get_grad_scaler_from_precision d fsdp } := rfl

theorem convert_not_recognized (s : String) (h1 : s ≠ "fp16")
    (h2 : s ≠ "bf16") :
    convert_precision_str_to_dtype s =
      Except.error
        ("Precision " ++ s ++
          " not supported. Please use one of `fp16` or `bf16`") := by
  have e1 : (s == "fp16") = false := by simp [h1]
  have e2 : (s == "bf16") = false := by simp [h2]
  simp [convert_precision_str_to_dtype, string_to_dtype_mapping, List.lookup,
    e1, e2]

/-- Claim C3: a successfully constructed unit holds a grad scaler if and
only if its resolved precision is `torch.float16`; when it does, the scaler
is the sharded-aware variant exactly when the module is FSDP-sharded and the
plain variant otherwise. -/
theorem C3_scaler_iff_fp16 (fsdp sched : Bool) (itv : Interval) (freq : Int)
    (parg : PrecisionArg) (u : AutoTrainUnit)
    (h : AutoTrainUnit.init fsdp sched itv freq parg = Except.ok u) :
    (u.grad_scaler.isSome ↔ u.precision = some Dtype.float16) ∧
    (u.precision = some Dtype.float16 →
      u.grad_scaler =
        some (if fsdp then GradScalerKind.sharded else GradScalerKind.plain)) := by
  cases parg with
  | nonePrec =>
      rw [init_nonePrec_eq] at h
      injection h with h
      subst h
      simp [baseUnit]
  | str s =>
      by_cases hs : s = ""
      · subst hs
        injection h with h
        subst h
        simp [baseUnit]
      · rw [init_str_eq fsdp sched itv freq s hs] at h
        by_cases h16 : s = "fp16"
        · subst h16
          injection h with h
          subst h
          cases fsdp <;> simp [get_grad_scaler_from_precision, baseUnit]
        · by_cases hb16 : s = "bf16"
          · subst hb16
            injection h with h
            subst h
            simp [get_grad_scaler_from_precision, baseUnit]
          · rw [convert_not_recognized s h16 hb16] at h
            exact Except.noConfusion h
  | dtype d =>
      rw [init_dtype_eq] at h
      injection h with h
      subst h
      cases d <;> cases fsdp <;>
        simp [get_grad_scaler_from_precision, baseUnit]

/-- Witness for C3: constructing with `precision="fp16"` on a non-sharded
module yields the plain scaler, matching the resolved fp16 precision. -/
theorem C3_witness :
    AutoTrainUnit.init false false Interval.epoch 10 (PrecisionArg.str "fp16") =
      Except.ok c1_unit ∧
    ((c1_unit.grad_scaler.isSome ↔ c1_unit.precision = some Dtype.float16) ∧
      (c1_unit.precision = some Dtype.float16 →
        c1_unit.grad_scaler =
          some (if false then GradScalerKind.sharded else GradScalerKind.plain))) :=
  ⟨rfl, C3_scaler_iff_fp16 false false Interval.epoch 10
    (PrecisionArg.str "fp16") c1_unit rfl⟩

/-- Claim C4: precision resolution maps `"fp16"` to `torch.float16` and
`"bf16"` to `torch.bfloat16`; any other non-empty string makes construction
fail with an error message naming the offending token and the accepted set
{`fp16`, `bf16`}, so construction never completes with a silently defaulted
precision. -/
theorem C4_precision_resolution (fsdp sched : Bool) (itv : Interval)
    (freq : Int) (s : String) (h1 : s ≠ "fp16") (h2 : s ≠ "bf16")
    (h3 : s ≠ "") :
    convert_precision_str_to_dtype "fp16" = Except.ok Dtype.float16 ∧
    convert_precision_str_to_dtype "bf16" = Except.ok Dtype.bfloat16 ∧
    AutoTrainUnit.init fsdp sched itv freq (PrecisionArg.str s) =
      Except.error
        ("Precision " ++ s ++
          " not supported. Please use one of `fp16` or `bf16`") := by
  refine ⟨rfl, rfl, ?_⟩
  rw [init_str_eq fsdp sched itv freq s h3, convert_not_recognized s h1 h2]

/-- Witness for C4 at the invalid token `"fp8"`. -/
theorem C4_witness :
    convert_precision_str_to_dtype "fp16" = Except.ok Dtype.float16 ∧
    convert_precision_str_to_dtype "bf16" = Except.ok Dtype.bfloat16 ∧
    AutoTrainUnit.init false false Interval.epoch 10 (PrecisionArg.str "fp8") =
      Except.error
        ("Precision " ++ "fp8" ++
          " not supported. Please use one of `fp16` or `bf16`") :=
  C4_precision_resolution false false Interval.epoch 10 "fp8" (by decide)
    (by decide) (by decide)

/-- Claim C5: with a positive configured frequency `N`, `train_step` fires
the step-interval `log_metrics` hook if and only if `(count + 1) % N == 0`
where `count` is the pre-increment completed-step count, passes exactly that
pre-increment count to the hook, and the firing condition holds exactly when
`count ≡ N - 1 (mod N)` — once every `N` driver-incremented calls. -/
theorem C5_log_cadence {α β : Type} (u : AutoTrainUnit) (c : Nat)
    (hook : Nat → α × β) (hN : 0 < u.log_frequency_steps) :
    ∃ out : TrainStepOut α β, train_step u ⟨some c⟩ hook = Except.ok out ∧
      out.events.filter Event.is_log_step =
        (if pymod ((c : Int) + 1) u.log_frequency_steps = 0 then
          [Event.log_metrics c Interval.step]
        else []) ∧
      (pymod ((c : Int) + 1) u.log_frequency_steps = 0 ↔
        c % u.log_frequency_steps.toNat = u.log_frequency_steps.toNat - 1) := by
  refine ⟨_, train_step_eq u c hook (by omega), ?_, ?_⟩
  · by_cases hg : u.grad_scaler.isSome <;>
      by_cases hs : u.has_lr_scheduler ∧ u.step_lr_interval = Interval.step <;>
        by_cases hl : pymod ((c : Int) + 1) u.log_frequency_steps = 0 <;>
          simp [stepEvents, hg, hs, hl, Event.is_log_step]
  · rw [pymod_succ_eq_zero_iff c u.log_frequency_steps hN]
    exact succ_mod_eq_zero_iff c u.log_frequency_steps.toNat (by omega)

/-- Witness for C5: frequency 3 at pre-increment count 2 — the third call —
fires the step-interval hook with step count 2. -/
theorem C5_witness :
    ∃ out : TrainStepOut Nat Nat,
      train_step (baseUnit false false Interval.epoch 3) ⟨some 2⟩
          (fun _ => (0, 0)) = Except.ok out ∧
      out.events.filter Event.is_log_step =
        (if pymod ((2 : Int) + 1) (baseUnit false false Interval.epoch 3).log_frequency_steps = 0 then
          [Event.log_metrics 2 Interval.step]
        else []) ∧
      (pymod ((2 : Int) + 1) (baseUnit false false Interval.epoch 3).log_frequency_steps = 0 ↔
        2 % (baseUnit false false Interval.epoch 3).log_frequency_steps.toNat =
          (baseUnit false false Interval.epoch 3).log_frequency_steps.toNat - 1) :=
  C5_log_cadence (baseUnit false false Interval.epoch 3) 2 (fun _ => (0, 0))
    (by decide)

/-- The unit built with `log_frequency_steps = -1` and no precision, used to
refute claim C6. -/
def c6_unit : AutoTrainUnit := baseUnit false false Interval.epoch (-1)

/-- Claim C6 is false on the code: the constructor stores
`log_frequency_steps` without any validation, so construction with the
non-positive frequency `-1` succeeds — and the resulting unit is perfectly
usable: `train_step` completes and (by Python `%` semantics on a negative
divisor) even fires the step-interval log hook. -/
theorem C6_counterexample :
    AutoTrainUnit.init false false Interval.epoch (-1) PrecisionArg.nonePrec =
      Except.ok c6_unit ∧
    ¬ 0 < c6_unit.log_frequency_steps ∧
    train_step c6_unit ⟨some 0⟩ (fun _ => ((0 : Nat), (0 : Nat))) =
      Except.ok
        ⟨[Event.copy_data_to_device,
          Event.compute_loss false false,
          Event.compute_loss true false,
          Event.backward (Loss.raw 0),
          Event.optimizer_step,
          Event.zero_grad true,
          Event.update_metrics (Loss.raw 0),
          Event.log_metrics 0 Interval.step],
        Loss.raw 0, 0⟩ := by
  refine ⟨rfl, by decide, rfl⟩

/-- Claim C6 (amended): construction accepts any integer logging frequency
unchanged and performs no positivity check; for every nonzero frequency —
negative ones included — the constructed unit is usable: `train_step`
completes successfully.  Only frequency 0 makes `train_step` fail, with a
`ZeroDivisionError` at the cadence check, not at construction. -/
theorem C6_amended_no_frequency_validation {α β : Type} (fsdp sched : Bool)
    (itv : Interval) (freq : Int) (c : Nat) (hook : Nat → α × β) :
    ∃ u : AutoTrainUnit,
      AutoTrainUnit.init fsdp sched itv freq PrecisionArg.nonePrec =
        Except.ok u ∧
      u.log_frequency_steps = freq ∧
      (freq ≠ 0 →
        ∃ out : TrainStepOut α β, train_step u ⟨some c⟩ hook = Except.ok out) ∧
      (freq = 0 →
        train_step u ⟨some c⟩ hook = Except.error "ZeroDivisionError") := by
  refine ⟨baseUnit fsdp sched itv freq, rfl, rfl, ?_, ?_⟩
  · intro hfreq
    exact ⟨_, train_step_eq (baseUnit fsdp sched itv freq) c hook hfreq⟩
  · intro hfreq
    subst hfreq
    rfl

/-- Witness for C6 (amended) at the concrete frequencies `-1` (construction
succeeds, `train_step` usable) and `0` (construction still succeeds,
`train_step` raises `ZeroDivisionError`). -/
theorem C6_amended_witness :
    (∃ u : AutoTrainUnit,
      AutoTrainUnit.init false false Interval.epoch (-1) PrecisionArg.nonePrec =
        Except.ok u ∧
      u.log_frequency_steps = -1 ∧
      ((-1 : Int) ≠ 0 →
        ∃ out : TrainStepOut Nat Nat,
          train_step u ⟨some 0⟩ (fun _ => (0, 0)) = Except.ok out) ∧
      ((-1 : Int) = 0 →
        train_step u ⟨some 0⟩ (fun _ => (0, 0)) =
          Except.error "ZeroDivisionError")) ∧
    (∃ u : AutoTrainUnit,
      AutoTrainUnit.init false false Interval.epoch 0 PrecisionArg.nonePrec =
        Except.ok u ∧
      u.log_frequency_steps = 0 ∧
      ((0 : Int) ≠ 0 →
        ∃ out : TrainStepOut Nat Nat,
          train_step u ⟨some 0⟩ (fun _ => (0, 0)) = Except.ok out) ∧
      ((0 : Int) = 0 →
        train_step u ⟨some 0⟩ (fun _ => (0, 0)) =
          Except.error "ZeroDivisionError")) :=
  ⟨C6_amended_no_frequency_validation false false Interval.epoch (-1) 0
      (fun _ => (0, 0)),
    C6_amended_no_frequency_validation false false Interval.epoch 0 0
      (fun _ => (0, 0))⟩

/-- Claim C7: `on_train_epoch_end` (with train state present) invokes the
`log_metrics` hook exactly once, with interval `"epoch"` and the current
completed-step count, unconditionally — independent of
`log_frequency_steps` — and after any scheduler advance. -/
theorem C7_epoch_end_logs_unconditionally {α : Type} (u : AutoTrainUnit)
    (c : Nat) :
    ∃ evs : List (Event α),
      on_train_epoch_end u ⟨some c⟩ = Except.ok evs ∧
      evs.filter Event.is_log = [Event.log_metrics c Interval.epoch] ∧
      evs =
        (if u.has_lr_scheduler ∧ u.step_lr_interval = Interval.epoch then
          [Event.lr_scheduler_step]
        else []) ++ [Event.log_metrics c Interval.epoch] := by
  refine ⟨_, rfl, ?_, rfl⟩
  by_cases hs : u.has_lr_scheduler ∧ u.step_lr_interval = Interval.epoch <;>
    simp [on_train_epoch_end, hs, Event.is_log]

/-- Claim C8: with a scheduler configured for `"step"`, each `train_step`
advances it exactly once and `on_train_epoch_end` never does; with
`"epoch"`, the reverse; with no scheduler, neither advances anything.  The
two filters below count scheduler-advance events in each trace. -/
theorem C8_scheduler_advance {α β : Type} (u : AutoTrainUnit) (c cE : Nat)
    (hook : Nat → α × β) (hN : u.log_frequency_steps ≠ 0) :
    ∃ out : TrainStepOut α β, ∃ evs : List (Event α),
      train_step u ⟨some c⟩ hook = Except.ok out ∧
      on_train_epoch_end u ⟨some cE⟩ = Except.ok evs ∧
      (out.events.filter Event.is_sched).length =
        (if u.has_lr_scheduler ∧ u.step_lr_interval = Interval.step then 1
         else 0) ∧
      (evs.filter Event.is_sched).length =
        (if u.has_lr_scheduler ∧ u.step_lr_interval = Interval.epoch then 1
         else 0) := by
  refine ⟨_, _, train_step_eq u c hook hN, rfl, ?_, ?_⟩
  · by_cases hg : u.grad_scaler.isSome <;>
      by_cases hs : u.has_lr_scheduler ∧ u.step_lr_interval = Interval.step <;>
        by_cases hl : pymod ((c : Int) + 1) u.log_frequency_steps = 0 <;>
          simp [stepEvents, hg, hs, hl, Event.is_sched]
  · by_cases hs : u.has_lr_scheduler ∧ u.step_lr_interval = Interval.epoch <;>
      simp [on_train_epoch_end, hs, Event.is_sched]

/-- Witness for C8 at a unit with a step-interval scheduler. -/
theorem C8_witness :
    ∃ out : TrainStepOut Nat Nat, ∃ evs : List (Event Nat),
      train_step (baseUnit false true Interval.step 5) ⟨some 0⟩
          (fun _ => (0, 0)) = Except.ok out ∧
      on_train_epoch_end (baseUnit false true Interval.step 5) ⟨some 0⟩ =
        Except.ok evs ∧
      (out.events.filter Event.is_sched).length =
        (if (baseUnit false true Interval.step 5).has_lr_scheduler ∧
            (baseUnit false true Interval.step 5).step_lr_interval =
              Interval.step then 1
         else 0) ∧
      (evs.filter Event.is_sched).length =
        (if (baseUnit false true Interval.step 5).has_lr_scheduler ∧
            (baseUnit false true Interval.step 5).step_lr_interval =
              Interval.epoch then 1
         else 0) :=
  C8_scheduler_advance (baseUnit false true Interval.step 5) 0 0
    (fun _ => (0, 0)) (by decide)

/-- Claim C9: every successful `train_step` performs exactly one gradient
reset, with `set_to_none=True` (the absent, not zero-valued, state), and a
parameter update (`optimizer.step()` or `grad_scaler.step(optimizer)`)
occurs strictly before it in the trace. -/
theorem C9_grad_reset_after_opt_step {α β : Type} (u : AutoTrainUnit)
    (c : Nat) (hook : Nat → α × β) (hN : u.log_frequency_steps ≠ 0) :
    ∃ out : TrainStepOut α β, train_step u ⟨some c⟩ hook = Except.ok out ∧
      out.events.filter Event.is_zero_grad = [Event.zero_grad true] ∧
      (out.events.takeWhile fun e => ! e.is_zero_grad).any
        Event.is_opt_update = true := by
  refine ⟨_, train_step_eq u c hook hN, ?_, ?_⟩ <;>
    by_cases hg : u.grad_scaler.isSome <;>
      by_cases hs : u.has_lr_scheduler ∧ u.step_lr_interval = Interval.step <;>
        by_cases hl : pymod ((c : Int) + 1) u.log_frequency_steps = 0 <;>
          simp [stepEvents, hg, hs, hl, Event.is_zero_grad,
            Event.is_opt_update, List.takeWhile]

/-- Witness for C9 at the concrete fp16 unit (scaler path). -/
theorem C9_witness :
    ∃ out : TrainStepOut Nat Nat,
      train_step c1_unit ⟨some 0⟩ (fun _ => (7, 0)) = Except.ok out ∧
      out.events.filter Event.is_zero_grad = [Event.zero_grad true] ∧
      (out.events.takeWhile fun e => ! e.is_zero_grad).any
        Event.is_opt_update = true :=
  C9_grad_reset_after_opt_step c1_unit 0 (fun _ => (7, 0)) (by decide)

end AutoUnit
